import Mathlib

/-!
Verification of the harvesting population-projection engine.

The engine (a stage-structured Leslie-matrix projection with three harvest
modes) is embedded shallowly: population counts are exact rationals, the mode
selector is a string exactly as in the source, the batch driver
`run_simulation` and the incremental driver `SimulationState` (with `reset`
and `step`) mirror the source code line by line.
-/

namespace Harvesting

/-- A stage vector (Juvenile, Sub-Adult, Adult population counts). -/
structure StageVec where
  j : ℚ
  s : ℚ
  a : ℚ
deriving DecidableEq, Repr

/-- `INITIAL_POP = np.array([1000.0, 500.0, 200.0])`. -/
def INITIAL_POP : StageVec := ⟨1000, 500, 200⟩

/-- Fecundity of juveniles: `F_J = 0.0`. -/
def F_J : ℚ := 0

/-- Fecundity of sub-adults: `F_S = 0.8`. -/
def F_S : ℚ := 0.8

/-- Fecundity of adults: `F_A = 2.5`. -/
def F_A : ℚ := 2.5

/-- Juvenile-to-sub-adult survival: `S_J_to_S = 0.5`. -/
def S_J_to_S : ℚ := 0.5

/-- Sub-adult-to-adult survival: `S_S_to_A = 0.7`. -/
def S_S_to_A : ℚ := 0.7

/-- Adult survival: `S_A_surv = 0.8`. -/
def S_A_surv : ℚ := 0.8

/-- Batch horizon: `YEARS = 50`. -/
def YEARS : ℕ := 50

/-- The survivors computation shared by `run_simulation` and
`SimulationState.step`: `survivors = np.zeros(3)` followed by the
`if/elif` chain on the mode string (no `else` branch, so an unknown mode
leaves the zero vector). -/
def survivorsOf (current : StageVec) (val_j val_s val_a : ℚ) (mode : String) :
    StageVec :=
  if mode = "Constant Quota" then
    ⟨max 0 (current.j - val_j), max 0 (current.s - val_s),
      max 0 (current.a - val_a)⟩
  else if mode = "Proportional (Uniform)" then
    ⟨current.j * (1 - val_j), current.s * (1 - val_j), current.a * (1 - val_j)⟩
  else if mode = "Selective (Age-Specific)" then
    ⟨current.j * (1 - val_j), current.s * (1 - val_s),
      current.a * (1 - val_a)⟩
  else ⟨0, 0, 0⟩

/-- One transition step: survivors from the harvest mode, then the fixed
biological progression
`next_j = survivors[0]*F_J + survivors[1]*F_S + survivors[2]*F_A`,
`next_s = survivors[0]*S_J_to_S`,
`next_a = survivors[1]*S_S_to_A + survivors[2]*S_A_surv`. -/
def advance (current : StageVec) (val_j val_s val_a : ℚ) (mode : String) :
    StageVec :=
  let sv := survivorsOf current val_j val_s val_a mode
  ⟨sv.j * F_J + sv.s * F_S + sv.a * F_A,
    sv.j * S_J_to_S,
    sv.s * S_S_to_A + sv.a * S_A_surv⟩

/-- The body of `run_simulation`'s `for t in range(YEARS)` loop: from the
current vector, the list of the next `n` computed vectors
(`history[t+1] = current_pop` after each update). -/
def simLoop (val_j val_s val_a : ℚ) (mode : String) :
    ℕ → StageVec → List StageVec
  | 0, _ => []
  | n + 1, current =>
    advance current val_j val_s val_a mode ::
      simLoop val_j val_s val_a mode n (advance current val_j val_s val_a mode)

/-- `run_simulation(val_j, val_s, val_a, mode)`: `history[0] = INITIAL_POP`,
then `YEARS` iterations of the transition, recording every vector. -/
def run_simulation (val_j val_s val_a : ℚ) (mode : String) : List StageVec :=
  INITIAL_POP :: simLoop val_j val_s val_a mode YEARS INITIAL_POP

/-- `n`-fold iteration of `advance` (the vector reached after `n` steps). -/
def advanceIter (val_j val_s val_a : ℚ) (mode : String) :
    ℕ → StageVec → StageVec
  | 0, v => v
  | n + 1, v => advanceIter val_j val_s val_a mode n
      (advance v val_j val_s val_a mode)

/-- Total population of a stage vector (`np.sum`). -/
def totalOf (v : StageVec) : ℚ := v.j + v.s + v.a

/-- The mutable state of the real-time driver: current vector, the four
per-series history lists, the time-index list, the run flag and the year
counter — the fields of the source's `SimulationState`. -/
structure SimulationState where
  current_pop : StageVec
  history_j : List ℚ
  history_s : List ℚ
  history_a : List ℚ
  history_tot : List ℚ
  time : List ℕ
  is_running : Bool
  year_counter : ℕ
deriving DecidableEq, Repr

/-- `SimulationState.reset`: restores the initial vector, the one-entry
histories, time `[0]`, `is_running = False` and `year_counter = 0`. -/
def SimulationState.reset (_st : SimulationState) : SimulationState :=
  { current_pop := INITIAL_POP
    history_j := [INITIAL_POP.j]
    history_s := [INITIAL_POP.s]
    history_a := [INITIAL_POP.a]
    history_tot := [totalOf INITIAL_POP]
    time := [0]
    is_running := false
    year_counter := 0 }

/-- The state built by `SimulationState.__init__` (which calls `reset`). -/
def initState : SimulationState :=
  SimulationState.reset ⟨⟨0, 0, 0⟩, [], [], [], [], [], false, 0⟩

/-- `SimulationState.step(val_j, val_s, val_a, mode)`: compute survivors and
the next vector exactly as in `run_simulation`, set `current_pop` to it,
increment `year_counter`, and append the new values to the five history
lists. The run flag is untouched. -/
def SimulationState.step (st : SimulationState)
    (val_j val_s val_a : ℚ) (mode : String) : SimulationState :=
  let next := advance st.current_pop val_j val_s val_a mode
  { current_pop := next
    history_j := st.history_j ++ [next.j]
    history_s := st.history_s ++ [next.s]
    history_a := st.history_a ++ [next.a]
    history_tot := st.history_tot ++ [totalOf next]
    time := st.time ++ [st.year_counter + 1]
    is_running := st.is_running
    year_counter := st.year_counter + 1 }

/-- `n` successive `step` calls with fixed parameters. -/
def stepN (val_j val_s val_a : ℚ) (mode : String) :
    ℕ → SimulationState → SimulationState
  | 0, st => st
  | n + 1, st =>
    (stepN val_j val_s val_a mode n st).step val_j val_s val_a mode

/-- A sequence of `step` calls in which every call carries its own harvest
parameter triple and mode (as the real-time driver does, reading the current
slider and radio values at each tick): the calls are applied in list
order. -/
def stepSeq : List (ℚ × ℚ × ℚ × String) → SimulationState → SimulationState
  | [], st => st
  | p :: ps, st => stepSeq ps (st.step p.1 p.2.1 p.2.2.1 p.2.2.2)

/-- The trajectory of length `n + 1` from the initial vector (entry `t` is
the vector after `t` steps); `run_simulation` is `fullHist YEARS`. -/
def fullHist (val_j val_s val_a : ℚ) (mode : String) (n : ℕ) :
    List StageVec :=
  INITIAL_POP :: simLoop val_j val_s val_a mode n INITIAL_POP

/-- A state used as a concrete starting point in counterexamples: the
driver one step into a run, with the run flag on. -/
def runningState : SimulationState :=
  { current_pop := ⟨900, 500, 510⟩
    history_j := [1000, 900]
    history_s := [500, 500]
    history_a := [200, 510]
    history_tot := [1700, 1910]
    time := [0, 1]
    is_running := true
    year_counter := 1 }

lemma advanceIter_succ (val_j val_s val_a : ℚ) (mode : String) (n : ℕ) :
    ∀ v, advanceIter val_j val_s val_a mode (n + 1) v =
      advance (advanceIter val_j val_s val_a mode n v) val_j val_s val_a
        mode := by
  induction n with
  | zero => intro v; rfl
  | succ n ih =>
    intro v
    show advanceIter val_j val_s val_a mode (n + 1)
      (advance v val_j val_s val_a mode) = _
    rw [ih]
    rfl

lemma simLoop_succ (val_j val_s val_a : ℚ) (mode : String) (n : ℕ) :
    ∀ v, simLoop val_j val_s val_a mode (n + 1) v =
      simLoop val_j val_s val_a mode n v ++
        [advanceIter val_j val_s val_a mode (n + 1) v] := by
  induction n with
  | zero => intro v; rfl
  | succ n ih =>
    intro v
    show advance v val_j val_s val_a mode ::
        simLoop val_j val_s val_a mode (n + 1)
          (advance v val_j val_s val_a mode) = _
    rw [ih]
    rfl

lemma fullHist_succ (val_j val_s val_a : ℚ) (mode : String) (n : ℕ) :
    fullHist val_j val_s val_a mode (n + 1) =
      fullHist val_j val_s val_a mode n ++
        [advanceIter val_j val_s val_a mode (n + 1) INITIAL_POP] := by
  unfold fullHist
  rw [simLoop_succ]
  rfl

lemma simLoop_length (val_j val_s val_a : ℚ) (mode : String) (n : ℕ) :
    ∀ v, (simLoop val_j val_s val_a mode n v).length = n := by
  induction n with
  | zero => intro v; rfl
  | succ n ih =>
    intro v
    show (advance v val_j val_s val_a mode :: _).length = n + 1
    rw [List.length_cons, ih]

lemma fullHist_length (val_j val_s val_a : ℚ) (mode : String) (n : ℕ) :
    (fullHist val_j val_s val_a mode n).length = n + 1 := by
  unfold fullHist
  rw [List.length_cons, simLoop_length]

lemma simLoop_get? (val_j val_s val_a : ℚ) (mode : String) (n : ℕ) :
    ∀ v i, (simLoop val_j val_s val_a mode n v).get? i =
      if i < n then some (advanceIter val_j val_s val_a mode (i + 1) v)
      else none := by
  induction n with
  | zero => intro v i; simp [simLoop]
  | succ n ih =>
    intro v i
    cases i with
    | zero =>
      rw [if_pos (Nat.succ_pos n)]
      rfl
    | succ i =>
      show (simLoop val_j val_s val_a mode n
        (advance v val_j val_s val_a mode)).get? i = _
      rw [ih]
      simp only [Nat.add_lt_add_iff_right]
      rfl

lemma fullHist_get? (val_j val_s val_a : ℚ) (mode : String) (n t : ℕ)
    (ht : t ≤ n) :
    (fullHist val_j val_s val_a mode n).get? t =
      some (advanceIter val_j val_s val_a mode t INITIAL_POP) := by
  cases t with
  | zero => rfl
  | succ t =>
    show (simLoop val_j val_s val_a mode n INITIAL_POP).get? t = _
    rw [simLoop_get?]
    exact if_pos (by omega)

/-- The closed-form description of the incremental state after `n` steps
from a freshly reset state: histories are the projections of the batch
trajectory, time is `0..n`, the counter is `n` and the run flag is off. -/
lemma stepN_reset_spec (val_j val_s val_a : ℚ) (mode : String) (n : ℕ)
    (st₀ : SimulationState) :
    stepN val_j val_s val_a mode n st₀.reset =
      { current_pop := advanceIter val_j val_s val_a mode n INITIAL_POP
        history_j := (fullHist val_j val_s val_a mode n).map StageVec.j
        history_s := (fullHist val_j val_s val_a mode n).map StageVec.s
        history_a := (fullHist val_j val_s val_a mode n).map StageVec.a
        history_tot := (fullHist val_j val_s val_a mode n).map totalOf
        time := List.range (n + 1)
        is_running := false
        year_counter := n } := by
  induction n with
  | zero => rfl
  | succ n ih =>
    show (stepN val_j val_s val_a mode n st₀.reset).step val_j val_s val_a
      mode = _
    rw [ih]
    conv_rhs => rw [fullHist_succ, List.range_succ]
    simp [SimulationState.step, List.map_append, advanceIter_succ]

lemma getD_map_get? (f : StageVec → ℚ) (H : List StageVec) (t : ℕ) :
    (H.map f).getD t 0 = ((H.get? t).map f).getD 0 := by
  induction H generalizing t with
  | nil => cases t <;> rfl
  | cons v H ih =>
    cases t with
    | zero => rfl
    | succ t => exact ih t

lemma survivorsOf_quota (v : StageVec) (a b c : ℚ) :
    survivorsOf v a b c "Constant Quota" =
      ⟨max 0 (v.j - a), max 0 (v.s - b), max 0 (v.a - c)⟩ := by
  unfold survivorsOf
  rw [if_pos rfl]

lemma survivorsOf_selective (v : StageVec) (a b c : ℚ) :
    survivorsOf v a b c "Selective (Age-Specific)" =
      ⟨v.j * (1 - a), v.s * (1 - b), v.a * (1 - c)⟩ := by
  unfold survivorsOf
  rw [if_neg (by decide), if_neg (by decide), if_pos rfl]

lemma survivorsOf_unknown (v : StageVec) (a b c : ℚ) (mode : String)
    (h1 : mode ≠ "Constant Quota") (h2 : mode ≠ "Proportional (Uniform)")
    (h3 : mode ≠ "Selective (Age-Specific)") :
    survivorsOf v a b c mode = ⟨0, 0, 0⟩ := by
  unfold survivorsOf
  rw [if_neg h1, if_neg h2, if_neg h3]

lemma advance_unknown (v : StageVec) (a b c : ℚ) (mode : String)
    (h1 : mode ≠ "Constant Quota") (h2 : mode ≠ "Proportional (Uniform)")
    (h3 : mode ≠ "Selective (Age-Specific)") :
    advance v a b c mode = ⟨0, 0, 0⟩ := by
  simp only [advance, survivorsOf_unknown v a b c mode h1 h2 h3]
  norm_num [F_J, S_J_to_S]

lemma advance_selective_initial :
    advance INITIAL_POP 0 0 0 "Selective (Age-Specific)" = ⟨900, 500, 510⟩ := by
  simp only [advance, survivorsOf_selective, INITIAL_POP]
  norm_num [F_J, F_S, F_A, S_J_to_S, S_S_to_A, S_A_surv, StageVec.mk.injEq]

lemma advance_quota_initial :
    advance INITIAL_POP 100 0 0 "Constant Quota" = ⟨900, 450, 510⟩ := by
  simp only [advance, survivorsOf_quota, INITIAL_POP]
  norm_num [F_J, F_S, F_A, S_J_to_S, S_S_to_A, S_A_surv, StageVec.mk.injEq,
    max_eq_right]

lemma survivorsOf_prop (v : StageVec) (r b c : ℚ) :
    survivorsOf v r b c "Proportional (Uniform)" =
      ⟨v.j * (1 - r), v.s * (1 - r), v.a * (1 - r)⟩ := by
  unfold survivorsOf
  rw [if_neg (by decide), if_pos rfl]

lemma advance_prop_slots (v : StageVec) (r b c b2 c2 : ℚ) :
    advance v r b c "Proportional (Uniform)" =
      advance v r b2 c2 "Proportional (Uniform)" := by
  unfold advance
  rw [survivorsOf_prop, survivorsOf_prop]

/-- C1: for every harvest parameter triple and mode, entry `t` of the batch
history produced by `run_simulation` equals the vector recorded at time `t`
by `YEARS` successive `step` calls on a freshly reset incremental state, and
the recorded time index at position `t` is `t`, for every `t ≤ YEARS`. -/
theorem batch_incremental_equiv (val_j val_s val_a : ℚ) (mode : String)
    (st₀ : SimulationState) (t : ℕ) (ht : t ≤ YEARS) :
    (run_simulation val_j val_s val_a mode).get? t =
      some ⟨(stepN val_j val_s val_a mode YEARS st₀.reset).history_j.getD t 0,
        (stepN val_j val_s val_a mode YEARS st₀.reset).history_s.getD t 0,
        (stepN val_j val_s val_a mode YEARS st₀.reset).history_a.getD t 0⟩ ∧
    (stepN val_j val_s val_a mode YEARS st₀.reset).time.get? t = some t := by
  rw [stepN_reset_spec]
  constructor
  · show (fullHist val_j val_s val_a mode YEARS).get? t = _
    rw [getD_map_get?, getD_map_get?, getD_map_get?,
      fullHist_get? val_j val_s val_a mode YEARS t ht]
    rfl
  · exact List.get?_range (by omega)

/-- C1 witness: the equivalence instantiated at rate parameters (1, 0, 0),
Proportional mode, the initial driver state and time index 0. -/
theorem batch_incremental_equiv_witness :
    (0 : ℕ) ≤ YEARS ∧
    ((run_simulation 1 0 0 "Proportional (Uniform)").get? 0 =
      some ⟨(stepN 1 0 0 "Proportional (Uniform)" YEARS
          initState.reset).history_j.getD 0 0,
        (stepN 1 0 0 "Proportional (Uniform)" YEARS
          initState.reset).history_s.getD 0 0,
        (stepN 1 0 0 "Proportional (Uniform)" YEARS
          initState.reset).history_a.getD 0 0⟩ ∧
    (stepN 1 0 0 "Proportional (Uniform)" YEARS
        initState.reset).time.get? 0 = some 0) :=
  ⟨by decide,
    batch_incremental_equiv 1 0 0 "Proportional (Uniform)" initState 0
      (by decide)⟩

/-- C2 counterexample: on a state whose run flag is on, `reset` does not
leave the run/pause flag unchanged — it turns it off. -/
theorem reset_flag_counterexample :
    runningState.is_running = true ∧
      runningState.reset.is_running = false :=
  ⟨rfl, rfl⟩

/-- C2 amended: `reset`, invoked in either state, sets the current vector to
the initial vector, the counter to 0 and the histories to the single time-0
entry, and it sets the run/pause flag to `false` (it does not leave the flag
unchanged). -/
theorem reset_spec_amended (st : SimulationState) :
    st.reset.current_pop = INITIAL_POP ∧
    st.reset.year_counter = 0 ∧
    st.reset.history_j = [INITIAL_POP.j] ∧
    st.reset.history_s = [INITIAL_POP.s] ∧
    st.reset.history_a = [INITIAL_POP.a] ∧
    st.reset.history_tot = [totalOf INITIAL_POP] ∧
    st.reset.time = [0] ∧
    st.reset.is_running = false :=
  ⟨rfl, rfl, rfl, rfl, rfl, rfl, rfl, rfl⟩

/-- C3 counterexample: an out-of-enumeration mode string is not rejected —
both the batch projection and the incremental step run to completion and
silently produce the zero vector (the `if/elif` chain has no `else`). -/
theorem unknown_mode_counterexample :
    (run_simulation 0 0 0 "Quota").get? 1 = some ⟨0, 0, 0⟩ ∧
    (initState.step 0 0 0 "Quota").current_pop = ⟨0, 0, 0⟩ ∧
    advance INITIAL_POP 0 0 0 "Quota" ≠
      advance INITIAL_POP 0 0 0 "Selective (Age-Specific)" := by
  have hu : advance INITIAL_POP 0 0 0 "Quota" = ⟨0, 0, 0⟩ :=
    advance_unknown INITIAL_POP 0 0 0 "Quota" (by decide) (by decide)
      (by decide)
  refine ⟨?_, ?_, ?_⟩
  · show (fullHist 0 0 0 "Quota" YEARS).get? 1 = _
    rw [fullHist_get? 0 0 0 "Quota" YEARS 1 (by decide), advanceIter_succ]
    show some (advance INITIAL_POP 0 0 0 "Quota") = _
    rw [hu]
  · show advance INITIAL_POP 0 0 0 "Quota" = _
    exact hu
  · rw [hu, advance_selective_initial]
    intro h
    have h9 := congrArg StageVec.j h
    norm_num at h9

/-- C3 amended: a mode value outside the closed enumeration is not rejected;
survivors silently default to the zero vector, so both the pure transition
and the incremental step yield the zero vector instead of failing fast. -/
theorem unknown_mode_silent_default (current : StageVec)
    (val_j val_s val_a : ℚ) (mode : String)
    (h1 : mode ≠ "Constant Quota")
    (h2 : mode ≠ "Proportional (Uniform)")
    (h3 : mode ≠ "Selective (Age-Specific)") :
    survivorsOf current val_j val_s val_a mode = ⟨0, 0, 0⟩ ∧
    advance current val_j val_s val_a mode = ⟨0, 0, 0⟩ ∧
    ∀ st : SimulationState,
      (st.step val_j val_s val_a mode).current_pop = ⟨0, 0, 0⟩ := by
  refine ⟨survivorsOf_unknown current val_j val_s val_a mode h1 h2 h3,
    advance_unknown current val_j val_s val_a mode h1 h2 h3, ?_⟩
  intro st
  show advance st.current_pop val_j val_s val_a mode = _
  exact advance_unknown st.current_pop val_j val_s val_a mode h1 h2 h3

/-- C3 witness: the silent-default behaviour at the concrete unknown mode
string "Unknown" on the vector (5, 6, 7). -/
theorem unknown_mode_silent_default_witness :
    ("Unknown" ≠ "Constant Quota") ∧
    ("Unknown" ≠ "Proportional (Uniform)") ∧
    ("Unknown" ≠ "Selective (Age-Specific)") ∧
    (survivorsOf ⟨5, 6, 7⟩ 1 2 3 "Unknown" = ⟨0, 0, 0⟩ ∧
      advance ⟨5, 6, 7⟩ 1 2 3 "Unknown" = ⟨0, 0, 0⟩ ∧
      ∀ st : SimulationState,
        (st.step 1 2 3 "Unknown").current_pop = ⟨0, 0, 0⟩) :=
  ⟨by decide, by decide, by decide,
    unknown_mode_silent_default ⟨5, 6, 7⟩ 1 2 3 "Unknown" (by decide)
      (by decide) (by decide)⟩

/-- C5: in Selective mode with all rates 0, one step from (1000, 500, 200)
leaves survivors (1000, 500, 200) and produces next vector (900, 500, 510),
both for the pure transition and for the incremental driver. -/
theorem selective_zero_harvest_scenario :
    survivorsOf ⟨1000, 500, 200⟩ 0 0 0 "Selective (Age-Specific)" =
      ⟨1000, 500, 200⟩ ∧
    advance ⟨1000, 500, 200⟩ 0 0 0 "Selective (Age-Specific)" =
      ⟨900, 500, 510⟩ ∧
    (initState.step 0 0 0 "Selective (Age-Specific)").current_pop =
      ⟨900, 500, 510⟩ := by
  refine ⟨?_, advance_selective_initial, advance_selective_initial⟩
  rw [survivorsOf_selective]
  norm_num [StageVec.mk.injEq]

/-- C6: Constant Quota survivors are `max 0 (stage[k] - quota[k])` in each
slot independently, and one step from (1000, 500, 200) with quotas
(100, 0, 0) yields (900, 450, 510). -/
theorem constant_quota_spec_and_scenario :
    (∀ (v : StageVec) (val_j val_s val_a : ℚ),
      survivorsOf v val_j val_s val_a "Constant Quota" =
        ⟨max 0 (v.j - val_j), max 0 (v.s - val_s), max 0 (v.a - val_a)⟩) ∧
    advance ⟨1000, 500, 200⟩ 100 0 0 "Constant Quota" = ⟨900, 450, 510⟩ := by
  exact ⟨fun v a b c => survivorsOf_quota v a b c, advance_quota_initial⟩

/-- C8: Proportional mode reads only slot 0 of the harvest triple:
survivors are `stage * (1 - harvest_params[0])` element-wise, and both
`advance` and `step` return identical results for parameter triples that
agree in slot 0 and differ arbitrarily in slots 1 and 2. -/
theorem proportional_ignores_extra_slots :
    (∀ (v : StageVec) (r b c : ℚ),
      survivorsOf v r b c "Proportional (Uniform)" =
        ⟨v.j * (1 - r), v.s * (1 - r), v.a * (1 - r)⟩) ∧
    (∀ (v : StageVec) (r b c b2 c2 : ℚ),
      advance v r b c "Proportional (Uniform)" =
        advance v r b2 c2 "Proportional (Uniform)") ∧
    (∀ (st : SimulationState) (r b c b2 c2 : ℚ),
      st.step r b c "Proportional (Uniform)" =
        st.step r b2 c2 "Proportional (Uniform)") := by
  refine ⟨fun v r b c => survivorsOf_prop v r b c,
    fun v r b c b2 c2 => advance_prop_slots v r b c b2 c2, ?_⟩
  intro st r b c b2 c2
  have h := advance_prop_slots st.current_pop r b c b2 c2
  simp only [SimulationState.step, h]

/-- C4: from a componentwise non-negative stage vector, with mode-appropriate
in-range harvest parameters (non-negative quotas under Constant Quota, rates
in [0, 1] under Proportional and Selective), one `advance` step yields a
componentwise non-negative vector. -/
theorem advance_nonneg (v : StageVec) (val_j val_s val_a : ℚ) (mode : String)
    (hm : mode = "Constant Quota" ∨ mode = "Proportional (Uniform)" ∨
      mode = "Selective (Age-Specific)")
    (hv : 0 ≤ v.j ∧ 0 ≤ v.s ∧ 0 ≤ v.a)
    (_hq : mode = "Constant Quota" → 0 ≤ val_j ∧ 0 ≤ val_s ∧ 0 ≤ val_a)
    (hr : mode ≠ "Constant Quota" →
      (0 ≤ val_j ∧ val_j ≤ 1) ∧ (0 ≤ val_s ∧ val_s ≤ 1) ∧
        (0 ≤ val_a ∧ val_a ≤ 1)) :
    0 ≤ (advance v val_j val_s val_a mode).j ∧
    0 ≤ (advance v val_j val_s val_a mode).s ∧
    0 ≤ (advance v val_j val_s val_a mode).a := by
  have hsv : 0 ≤ (survivorsOf v val_j val_s val_a mode).j ∧
      0 ≤ (survivorsOf v val_j val_s val_a mode).s ∧
      0 ≤ (survivorsOf v val_j val_s val_a mode).a := by
    rcases hm with h | h | h
    · subst h
      rw [survivorsOf_quota]
      exact ⟨le_max_left 0 _, le_max_left 0 _, le_max_left 0 _⟩
    · subst h
      have hr2 := hr (by decide)
      rw [survivorsOf_prop]
      exact ⟨mul_nonneg hv.1 (by linarith [hr2.1.2]),
        mul_nonneg hv.2.1 (by linarith [hr2.1.2]),
        mul_nonneg hv.2.2 (by linarith [hr2.1.2])⟩
    · subst h
      have hr2 := hr (by decide)
      rw [survivorsOf_selective]
      exact ⟨mul_nonneg hv.1 (by linarith [hr2.1.2]),
        mul_nonneg hv.2.1 (by linarith [hr2.2.1.2]),
        mul_nonneg hv.2.2 (by linarith [hr2.2.2.2])⟩
  obtain ⟨s1, s2, s3⟩ := hsv
  refine ⟨?_, ?_, ?_⟩
  · exact add_nonneg (add_nonneg (mul_nonneg s1 (by norm_num [F_J]))
      (mul_nonneg s2 (by norm_num [F_S]))) (mul_nonneg s3 (by norm_num [F_A]))
  · exact mul_nonneg s1 (by norm_num [S_J_to_S])
  · exact add_nonneg (mul_nonneg s2 (by norm_num [S_S_to_A]))
      (mul_nonneg s3 (by norm_num [S_A_surv]))

/-- C4 witness: non-negativity instantiated at the vector (1000, 500, 200)
in Selective mode with rates (1/2, 0, 1). -/
theorem advance_nonneg_witness :
    (0 ≤ (⟨1000, 500, 200⟩ : StageVec).j ∧
      0 ≤ (⟨1000, 500, 200⟩ : StageVec).s ∧
      0 ≤ (⟨1000, 500, 200⟩ : StageVec).a) ∧
    (0 ≤ (advance ⟨1000, 500, 200⟩ (1/2) 0 1 "Selective (Age-Specific)").j ∧
      0 ≤ (advance ⟨1000, 500, 200⟩ (1/2) 0 1 "Selective (Age-Specific)").s ∧
      0 ≤ (advance ⟨1000, 500, 200⟩ (1/2) 0 1 "Selective (Age-Specific)").a) :=
  ⟨⟨by norm_num, by norm_num, by norm_num⟩,
    advance_nonneg ⟨1000, 500, 200⟩ (1/2) 0 1 "Selective (Age-Specific)"
      (Or.inr (Or.inr rfl)) ⟨by norm_num, by norm_num, by norm_num⟩
      (fun h => absurd h (by decide)) (fun _ => by norm_num)⟩

/-- C7: with all harvest parameters 0, the three modes produce the identical
next vector on every (non-negative) input stage vector. -/
theorem zero_harvest_mode_equiv (v : StageVec)
    (h1 : 0 ≤ v.j) (h2 : 0 ≤ v.s) (h3 : 0 ≤ v.a) :
    advance v 0 0 0 "Constant Quota" =
      advance v 0 0 0 "Selective (Age-Specific)" ∧
    advance v 0 0 0 "Proportional (Uniform)" =
      advance v 0 0 0 "Selective (Age-Specific)" := by
  have hquo : survivorsOf v 0 0 0 "Constant Quota" = v := by
    rw [survivorsOf_quota]
    simp only [sub_zero]
    rw [max_eq_right h1, max_eq_right h2, max_eq_right h3]
  have hsel : survivorsOf v 0 0 0 "Selective (Age-Specific)" = v := by
    rw [survivorsOf_selective]
    simp only [sub_zero, mul_one]
  have hpro : survivorsOf v 0 0 0 "Proportional (Uniform)" = v := by
    rw [survivorsOf_prop]
    simp only [sub_zero, mul_one]
  refine ⟨?_, ?_⟩
  · simp only [advance, hquo, hsel]
  · simp only [advance, hpro, hsel]

/-- C7 witness: mode equivalence at zero harvest instantiated at the vector
(1000, 500, 200). -/
theorem zero_harvest_mode_equiv_witness :
    (0 ≤ (⟨1000, 500, 200⟩ : StageVec).j ∧
      0 ≤ (⟨1000, 500, 200⟩ : StageVec).s ∧
      0 ≤ (⟨1000, 500, 200⟩ : StageVec).a) ∧
    (advance ⟨1000, 500, 200⟩ 0 0 0 "Constant Quota" =
        advance ⟨1000, 500, 200⟩ 0 0 0 "Selective (Age-Specific)" ∧
      advance ⟨1000, 500, 200⟩ 0 0 0 "Proportional (Uniform)" =
        advance ⟨1000, 500, 200⟩ 0 0 0 "Selective (Age-Specific)") :=
  ⟨⟨by norm_num, by norm_num, by norm_num⟩,
    zero_harvest_mode_equiv ⟨1000, 500, 200⟩ (by norm_num) (by norm_num)
      (by norm_num)⟩

lemma stepSeq_append (ps qs : List (ℚ × ℚ × ℚ × String)) :
    ∀ st : SimulationState,
      stepSeq (ps ++ qs) st = stepSeq qs (stepSeq ps st) := by
  induction ps with
  | nil => intro st; rfl
  | cons p ps ih => intro st; exact ih (st.step p.1 p.2.1 p.2.2.1 p.2.2.2)

lemma stepSeq_lengths (ps : List (ℚ × ℚ × ℚ × String)) :
    ∀ st : SimulationState,
      (stepSeq ps st).history_j.length = st.history_j.length + ps.length ∧
      (stepSeq ps st).history_s.length = st.history_s.length + ps.length ∧
      (stepSeq ps st).history_a.length = st.history_a.length + ps.length ∧
      (stepSeq ps st).history_tot.length =
        st.history_tot.length + ps.length ∧
      (stepSeq ps st).time.length = st.time.length + ps.length := by
  induction ps with
  | nil => intro st; simp [stepSeq]
  | cons p ps ih =>
    intro st
    have h := ih (st.step p.1 p.2.1 p.2.2.1 p.2.2.2)
    simp only [stepSeq, SimulationState.step, List.length_append,
      List.length_cons, List.length_nil] at h ⊢
    omega

/-- C9: after any sequence of `step` calls from a freshly reset state, each
call carrying its own harvest parameters and mode, every history list has
exactly `1 + n` entries (`n` the number of calls), and one further step with
arbitrary parameters only appends one new entry to each list, leaving every
previously recorded entry in place. -/
theorem history_append_only (ps : List (ℚ × ℚ × ℚ × String))
    (st₀ : SimulationState) (a b c : ℚ) (m : String) :
    ((stepSeq ps st₀.reset).history_j.length = 1 + ps.length ∧
      (stepSeq ps st₀.reset).history_s.length = 1 + ps.length ∧
      (stepSeq ps st₀.reset).history_a.length = 1 + ps.length ∧
      (stepSeq ps st₀.reset).history_tot.length = 1 + ps.length ∧
      (stepSeq ps st₀.reset).time.length = 1 + ps.length) ∧
    ((stepSeq (ps ++ [(a, b, c, m)]) st₀.reset).history_j =
        (stepSeq ps st₀.reset).history_j ++
          [(advance (stepSeq ps st₀.reset).current_pop a b c m).j] ∧
      (stepSeq (ps ++ [(a, b, c, m)]) st₀.reset).history_s =
        (stepSeq ps st₀.reset).history_s ++
          [(advance (stepSeq ps st₀.reset).current_pop a b c m).s] ∧
      (stepSeq (ps ++ [(a, b, c, m)]) st₀.reset).history_a =
        (stepSeq ps st₀.reset).history_a ++
          [(advance (stepSeq ps st₀.reset).current_pop a b c m).a] ∧
      (stepSeq (ps ++ [(a, b, c, m)]) st₀.reset).history_tot =
        (stepSeq ps st₀.reset).history_tot ++
          [totalOf (advance (stepSeq ps st₀.reset).current_pop a b c m)] ∧
      (stepSeq (ps ++ [(a, b, c, m)]) st₀.reset).time =
        (stepSeq ps st₀.reset).time ++
          [(stepSeq ps st₀.reset).year_counter + 1]) := by
  have hl := stepSeq_lengths ps st₀.reset
  have ha := stepSeq_append ps [(a, b, c, m)] st₀.reset
  refine ⟨⟨?_, ?_, ?_, ?_, ?_⟩, ?_, ?_, ?_, ?_, ?_⟩
  · rw [hl.1]; rfl
  · rw [hl.2.1]; rfl
  · rw [hl.2.2.1]; rfl
  · rw [hl.2.2.2.1]; rfl
  · rw [hl.2.2.2.2]; rfl
  · rw [ha]; rfl
  · rw [ha]; rfl
  · rw [ha]; rfl
  · rw [ha]; rfl
  · rw [ha]; rfl

/-- C10: at every recorded index, the stored total equals the sum of the
three per-stage entries; at index 0 it is the total of the initial vector,
and the batch trajectory starts at the initial vector's total. -/
theorem total_population_identity (val_j val_s val_a : ℚ) (mode : String)
    (n t : ℕ) (st₀ : SimulationState) :
    (stepN val_j val_s val_a mode n st₀.reset).history_tot.getD t 0 =
      (stepN val_j val_s val_a mode n st₀.reset).history_j.getD t 0 +
        (stepN val_j val_s val_a mode n st₀.reset).history_s.getD t 0 +
        (stepN val_j val_s val_a mode n st₀.reset).history_a.getD t 0 ∧
    (stepN val_j val_s val_a mode n st₀.reset).history_tot.getD 0 0 =
      totalOf INITIAL_POP ∧
    totalOf ((run_simulation val_j val_s val_a mode).getD 0 ⟨0, 0, 0⟩) =
      totalOf INITIAL_POP := by
  simp only [stepN_reset_spec]
  refine ⟨?_, rfl, rfl⟩
  rw [getD_map_get?, getD_map_get?, getD_map_get?, getD_map_get?]
  cases h : (fullHist val_j val_s val_a mode n).get? t with
  | none => norm_num
  | some v => rfl

end Harvesting
